import Mathlib

/-!
Shallow embedding of the AWS KMS server keymanager plugin
(`pkg/kms/kms.go`) and proofs about its key-entry store, type
mapping layer, reconciliation engine and key lifecycle orchestrator.

Modelling conventions:
* Go strings are Lean `String`s; byte slices are `List Nat`.
* `time.Time` values are compared in the source only through `.Unix()`,
  so a creation time is modelled as an `Int` of Unix seconds.
* The AWS KMS client is an external collaborator: each backend response
  that an operation consumes is passed in explicitly (as an
  `Except String` value so a backend failure can be modelled), and the
  backend calls an operation issues are returned as an explicit trace.
* `errs.Class("kms").New(msg)` errors are modelled by their format
  string with the arguments already substituted.
-/

set_option autoImplicit false

namespace KmsPlugin

/-- The SPIRE keymanager `KeyType` enumeration (`keymanager.KeyType`).
`UNSPECIFIED` stands for `KeyType_UNSPECIFIED_KEY_TYPE` and plays the
role of any value hitting the `default` arm of the Go switches. -/
inductive KeyType where
  | UNSPECIFIED
  | EC_P256
  | EC_P384
  | RSA_1024
  | RSA_2048
  | RSA_4096
  deriving DecidableEq, Repr

/-- AWS SDK constant `kms.CustomerMasterKeySpecRsa2048`. -/
def CustomerMasterKeySpecRsa2048 : String := "RSA_2048"

/-- AWS SDK constant `kms.CustomerMasterKeySpecRsa4096`. -/
def CustomerMasterKeySpecRsa4096 : String := "RSA_4096"

/-- AWS SDK constant `kms.CustomerMasterKeySpecEccNistP256`. -/
def CustomerMasterKeySpecEccNistP256 : String := "ECC_NIST_P256"

/-- AWS SDK constant `kms.CustomerMasterKeySpecEccNistP384`. -/
def CustomerMasterKeySpecEccNistP384 : String := "ECC_NIST_P384"

/-- AWS SDK constant `kms.KeyUsageTypeSignVerify`. -/
def KeyUsageTypeSignVerify : String := "SIGN_VERIFY"

/-- AWS SDK constant `kms.MessageTypeDigest`. -/
def MessageTypeDigest : String := "DIGEST"

/-- AWS SDK constant `kms.SigningAlgorithmSpecEcdsaSha256`. -/
def SigningAlgorithmSpecEcdsaSha256 : String := "ECDSA_SHA_256"

/-- The ownership tag prefixed to every managed key's description
(`keyPrefix` in the source). -/
def keyPrefix : String := "SPIRE_SERVER_KEY:"

/-- `keymanager.PublicKey`: logical id, key type and PKIX-encoded bytes.
The Go field `Type` is spelled `Type'` because `Type` is reserved in Lean. -/
structure PublicKey where
  Id : String
  Type' : KeyType
  PkixData : List Nat
  deriving DecidableEq, Repr

/-- `keyEntry`: one logical key's current backing material. -/
structure keyEntry where
  AwsKeyID : String
  CreationDate : Int
  PublicKey : PublicKey
  deriving DecidableEq, Repr

/-- The plugin's `entries` map, modelled as an association list with
at most one binding per key (lookup takes the first binding). -/
abbrev Entries := List (String × keyEntry)

/-- Lookup in the `entries` map (`p.entries[spireKeyID]`). -/
def getEntry : Entries → String → Option keyEntry
  | [], _ => none
  | (k, v) :: rest, id => if k = id then some v else getEntry rest id

/-- Map update `p.entries[spireKeyID] = newEntry`: replaces the binding
for the key if present, otherwise adds one. -/
def insertEntry : Entries → String → keyEntry → Entries
  | [], id, v => [(id, v)]
  | (k, w) :: rest, id, v =>
      if k = id then (k, v) :: rest else (k, w) :: insertEntry rest id v

/-- `setEntry` (kms.go:226-237): the store's conditional Put.  Rejects
the new entry only when an existing entry has a strictly greater
`CreationDate.Unix()`; in every other case (no entry, strictly newer
entry, or equal timestamps) it stores the new entry and returns true. -/
def setEntry (es : Entries) (spireKeyID : String) (newEntry : keyEntry) :
    Entries × Bool :=
  match getEntry es spireKeyID with
  | some oldEntry =>
      if oldEntry.CreationDate > newEntry.CreationDate then
        (es, false)
      else
        (insertEntry es spireKeyID newEntry, true)
  | none => (insertEntry es spireKeyID newEntry, true)

/-- `entry` (kms.go:239-244): plain lookup returning the found flag. -/
def entry (es : Entries) (spireKeyID : String) : Option keyEntry :=
  getEntry es spireKeyID

/-- `keyTypeFromKeySpec` (kms.go:283-297): backend spec to KeyType. -/
def keyTypeFromKeySpec (keySpec : String) : Except String KeyType :=
  if keySpec = CustomerMasterKeySpecRsa2048 then .ok .RSA_2048
  else if keySpec = CustomerMasterKeySpecRsa4096 then .ok .RSA_4096
  else if keySpec = CustomerMasterKeySpecEccNistP256 then .ok .EC_P256
  else if keySpec = CustomerMasterKeySpecEccNistP384 then .ok .EC_P384
  else .error "unsupported"

/-- `keySpecFromKeyType` (kms.go:299-314): KeyType to backend spec.
`RSA_1024` is recognized but rejected with "unsupported"; every other
unmapped value falls to the default arm's "unknown and unsupported". -/
def keySpecFromKeyType (keyType : KeyType) : Except String String :=
  match keyType with
  | .RSA_1024 => .error "unsupported"
  | .RSA_2048 => .ok CustomerMasterKeySpecRsa2048
  | .RSA_4096 => .ok CustomerMasterKeySpecRsa4096
  | .EC_P256 => .ok CustomerMasterKeySpecEccNistP256
  | .EC_P384 => .ok CustomerMasterKeySpecEccNistP384
  | .UNSPECIFIED => .error "unknown and unsupported"

/-- One backend sign request, as passed to `kms.SignWithContext`. -/
structure SignInput where
  KeyId : String
  Message : List Nat
  MessageType : String
  SigningAlgorithm : String
  deriving DecidableEq, Repr

/-- `SignData` (kms.go:177-197): looks up the entry for the requested
key id (failing when absent) and builds the sign request sent to the
backend.  The backend's signature bytes are opaque, so the modelled
result is the `SignInput` the backend receives. -/
def SignData (es : Entries) (reqKeyId : String) (reqData : List Nat) :
    Except String SignInput :=
  match entry es reqKeyId with
  | none => .error ("unable to find KeyId: " ++ reqKeyId)
  | some keyEntry =>
      .ok ⟨keyEntry.AwsKeyID, reqData, MessageTypeDigest,
        SigningAlgorithmSpecEcdsaSha256⟩

/-- `GetPublicKey` (kms.go:199-215): an empty key id is an error;
otherwise a missing entry yields an empty (successful) response,
modelled as `.ok none`. -/
def GetPublicKey (es : Entries) (reqKeyId : String) :
    Except String (Option PublicKey) :=
  if reqKeyId = "" then .error "KeyId is required"
  else
    match entry es reqKeyId with
    | none => .ok none
    | some e => .ok (some e.PublicKey)

/-- A call made to the backend KMS client by an operation. -/
inductive BackendCall where
  | createKey (description usage spec : String)
  | getPublicKey (keyId : String)
  | scheduleKeyDeletion (keyId : String)
  deriving DecidableEq, Repr

/-- The fields of `kms.CreateKeyOutput` that `GenerateKey` consumes. -/
structure CreateKeyResult where
  KeyId : String
  CreationDate : Int
  deriving DecidableEq, Repr

/-- The fields of `kms.GetPublicKeyOutput` that `GenerateKey` consumes. -/
structure GetPublicKeyResult where
  KeyId : String
  PublicKey : List Nat
  deriving DecidableEq, Repr

/-- Result of `GenerateKey`: the updated entries map, the trace of
backend calls issued (in order), and the response or error. -/
structure GenerateKeyOutcome where
  entries : Entries
  calls : List BackendCall
  result : Except String PublicKey

/-- `GenerateKey` (kms.go:128-175).  The backend's responses to the
create-key, get-public-key and schedule-key-deletion calls are passed
in as `Except` values; the calls actually issued are returned in
`calls`.  Mirrors the source: map the key type (failing fast), create
the key, fetch its public part, read the old entry, conditionally
`setEntry`, and schedule deletion of the old backend key only when an
old entry existed and the put was accepted. -/
def GenerateKey (es : Entries) (reqKeyId : String) (reqKeyType : KeyType)
    (createRes : Except String CreateKeyResult)
    (pubRes : Except String GetPublicKeyResult)
    (deleteRes : Except String Unit) : GenerateKeyOutcome :=
  let description := keyPrefix ++ reqKeyId
  match keySpecFromKeyType reqKeyType with
  | .error e => ⟨es, [], .error e⟩
  | .ok keySpec =>
    let createCall := BackendCall.createKey description KeyUsageTypeSignVerify keySpec
    match createRes with
    | .error e => ⟨es, [createCall], .error e⟩
    | .ok key =>
      let pubCall := BackendCall.getPublicKey key.KeyId
      match pubRes with
      | .error e => ⟨es, [createCall, pubCall], .error e⟩
      | .ok pub =>
        let newEntry : keyEntry :=
          ⟨pub.KeyId, key.CreationDate, ⟨reqKeyId, reqKeyType, pub.PublicKey⟩⟩
        match entry es reqKeyId with
        | some oldEntry =>
          let r := setEntry es reqKeyId newEntry
          if r.2 then
            let delCall := BackendCall.scheduleKeyDeletion oldEntry.AwsKeyID
            match deleteRes with
            | .error e => ⟨r.1, [createCall, pubCall, delCall], .error e⟩
            | .ok _ => ⟨r.1, [createCall, pubCall, delCall], .ok newEntry.PublicKey⟩
          else
            ⟨r.1, [createCall, pubCall], .ok newEntry.PublicKey⟩
        | none =>
          ⟨(setEntry es reqKeyId newEntry).1, [createCall, pubCall],
            .ok newEntry.PublicKey⟩

/-- The key ids targeted by schedule-key-deletion calls in a trace. -/
def deletionCalls (calls : List BackendCall) : List String :=
  calls.filterMap fun c =>
    match c with
    | .scheduleKeyDeletion k => some k
    | _ => none

/-- Leftmost-occurrence search underlying `splitAfter`: returns the
piece of `s` up to and including the first occurrence of `sep`,
together with the remainder, or `none` when `sep` does not occur.
Only used with a nonempty `sep`. -/
def firstOcc (sep : List Char) : List Char → Option (List Char × List Char)
  | [] => none
  | c :: rest =>
      if sep.isPrefixOf (c :: rest) then
        some (sep, (c :: rest).drop sep.length)
      else
        match firstOcc sep rest with
        | some (pre, post) => some (c :: pre, post)
        | none => none

/-- Fuel-indexed worker for `splitAfter`; the fuel (an upper bound on
the number of occurrences plus one) makes the recursion structural. -/
def splitAfterAux (sep : List Char) : Nat → List Char → List (List Char)
  | 0, s => [s]
  | fuel + 1, s =>
      match firstOcc sep s with
      | none => [s]
      | some (pre, post) => pre :: splitAfterAux sep fuel post

/-- Go `strings.SplitAfter` for a nonempty separator: slices `s` into
substrings after each leftmost, non-overlapping occurrence of `sep`. -/
def splitAfter (s sep : String) : List String :=
  (splitAfterAux sep.toList (s.toList.length + 1) s.toList).map String.mk

/-- Go `strings.HasPrefix`. -/
def hasPrefixGo (s pre : String) : Bool := pre.toList.isPrefixOf s.toList

/-- The fields of `kms.KeyMetadata` that reconciliation consumes. -/
structure KeyMetadata where
  CustomerMasterKeySpec : String
  Enabled : Bool
  Description : String
  CreationDate : Int
  deriving DecidableEq, Repr

/-- One backend key as reconciliation sees it: its id, the outcome of
describing it, and the outcome of fetching its public part. -/
structure KMSKeyData where
  KeyId : String
  DescribeResult : Except String KeyMetadata
  GetPublicKeyResult : Except String (List Nat)

/-- Result of `processKMSKey`: the updated entries map, the `setEntry`
call performed (if any), and the per-key success or error. -/
structure ProcessOutcome where
  entries : Entries
  putCall : Option (String × keyEntry)
  result : Except String Unit

/-- `processKMSKey` (kms.go:95-126): describe the key, map its spec to
a key type (an unsupported spec is a per-key error), and — for an
enabled key whose description carries the ownership tag — parse the
logical id as `strings.SplitAfter(description, keyPrefix)[1]`, fetch
the public key bytes, and `setEntry` the resulting entry. -/
def processKMSKey (es : Entries) (k : KMSKeyData) : ProcessOutcome :=
  match k.DescribeResult with
  | .error e => ⟨es, none, .error e⟩
  | .ok md =>
    match keyTypeFromKeySpec md.CustomerMasterKeySpec with
    | .error e => ⟨es, none, .error e⟩
    | .ok keyType =>
      if md.Enabled && hasPrefixGo md.Description keyPrefix then
        let descSplit := splitAfter md.Description keyPrefix
        let spireKeyID := (descSplit[1]?).getD ""
        match k.GetPublicKeyResult with
        | .error e => ⟨es, none, .error e⟩
        | .ok pubBytes =>
          let e : keyEntry :=
            ⟨k.KeyId, md.CreationDate, ⟨spireKeyID, keyType, pubBytes⟩⟩
          ⟨(setEntry es spireKeyID e).1, some (spireKeyID, e), .ok ()⟩
      else ⟨es, none, .ok ()⟩

/-- The reconciliation loop of `Configure` (kms.go:85-90): process each
listed key in order, ignoring (only logging) per-key errors.  Returns
the final entries map and the `setEntry` calls performed, in order. -/
def reconcile (es : Entries) : List KMSKeyData → Entries × List (String × keyEntry)
  | [] => (es, [])
  | k :: rest =>
      let r := processKMSKey es k
      let next := reconcile r.entries rest
      (next.1, r.putCall.toList ++ next.2)

/-- Modelled from the spec §4.3/§8 (reconciliation filter): the Put
reconciliation is expected to perform for one backend key — present
exactly when describing succeeded, the key is enabled, its description
carries the ownership tag, its spec is supported, and its public part
was fetched. -/
def specAdoptedPut (k : KMSKeyData) : Option (String × keyEntry) :=
  match k.DescribeResult, k.GetPublicKeyResult with
  | .ok md, .ok pubBytes =>
      match keyTypeFromKeySpec md.CustomerMasterKeySpec with
      | .ok keyType =>
          if md.Enabled && hasPrefixGo md.Description keyPrefix then
            some ((splitAfter md.Description keyPrefix)[1]?.getD "",
              ⟨k.KeyId, md.CreationDate,
                ⟨(splitAfter md.Description keyPrefix)[1]?.getD "",
                  keyType, pubBytes⟩⟩)
          else none
      | .error _ => none
  | _, _ => none

/-- Whether a backend key passes the reconciliation filter (enabled,
tagged, supported spec), given its describe outcome. -/
def specAdopted (k : KMSKeyData) : Bool :=
  match k.DescribeResult with
  | .ok md =>
      md.Enabled && hasPrefixGo md.Description keyPrefix &&
        (keyTypeFromKeySpec md.CustomerMasterKeySpec).isOk
  | .error _ => false

/-- `Config` (kms.go:52-56). -/
structure Config where
  AccessKeyID : String
  SecretAccessKey : String
  Region : String
  deriving DecidableEq, Repr

/-- `configure` (kms.go:258-269): decodes the HCL configuration text —
the decode outcome is modelled as an `Option Config` — and performs no
field validation (the validation block in the source is commented out,
so a decoded `Config` is returned as-is, empty fields included). -/
def configure (decoded : Option Config) : Except String Config :=
  match decoded with
  | none => .error "unable to decode configuration"
  | some c => .ok c

/-- Result of `Configure`: whether `newKMSClient` was invoked, and the
final entries map or the error returned. -/
structure ConfigureOutcome where
  clientConstructed : Bool
  result : Except String Entries

/-- `Configure` (kms.go:65-93): decode the configuration, construct
the KMS client (`clientRes` models `newKMSClient`'s outcome), list the
backend keys (`listRes`; fatal on failure), then reconcile each listed
key, ignoring per-key failures.  The entries map starts empty, as
initialized by `New`. -/
def Configure (decoded : Option Config) (clientRes : Except String Unit)
    (listRes : Except String (List KMSKeyData)) : ConfigureOutcome :=
  match configure decoded with
  | .error e => ⟨false, .error e⟩
  | .ok _ =>
    match clientRes with
    | .error e => ⟨true, .error e⟩
    | .ok _ =>
      match listRes with
      | .error e => ⟨true, .error e⟩
      | .ok keys => ⟨true, .ok (reconcile [] keys).1⟩

theorem getEntry_insertEntry_self (es : Entries) (id : String) (v : keyEntry) :
    getEntry (insertEntry es id v) id = some v := by
  induction es with
  | nil => simp [insertEntry, getEntry]
  | cons hd tl ih =>
      obtain ⟨k, w⟩ := hd
      by_cases h : k = id <;> simp [insertEntry, getEntry, h, ih]

/-- Claim C1 counterexample: a Put whose `CreationDate` equals the
current entry's is accepted (returns true) and replaces the entry,
contradicting "equal creationTime is a no-op returning accepted = false". -/
theorem setEntry_tie_counterexample :
    let e1 : keyEntry := ⟨"aws-1", 5, ⟨"id", .EC_P256, [1]⟩⟩
    let e2 : keyEntry := ⟨"aws-2", 5, ⟨"id", .EC_P256, [2]⟩⟩
    (setEntry [("id", e1)] "id" e2).2 = true ∧
      getEntry (setEntry [("id", e1)] "id" e2).1 "id" =
        some ⟨"aws-2", 5, ⟨"id", .EC_P256, [2]⟩⟩ := by
  constructor <;> rfl

/-- Claim C1 (amended): `setEntry` adopts the new entry and returns
true when no entry exists or the new entry's creation time is greater
than **or equal to** the existing one's; only a strictly older new
entry is rejected, leaving the store unchanged and returning false. -/
theorem setEntry_spec (es : Entries) (id : String) (ne : keyEntry) :
    match getEntry es id with
    | none =>
        (setEntry es id ne).2 = true ∧
          getEntry (setEntry es id ne).1 id = some ne
    | some old =>
        ((setEntry es id ne).2 = true ↔ old.CreationDate ≤ ne.CreationDate) ∧
          ((setEntry es id ne).2 = true →
            getEntry (setEntry es id ne).1 id = some ne) ∧
          ((setEntry es id ne).2 = false → (setEntry es id ne).1 = es) := by
  cases h : getEntry es id with
  | none =>
      simp [setEntry, h, getEntry_insertEntry_self]
  | some old =>
      by_cases hlt : old.CreationDate > ne.CreationDate
      · simp [setEntry, h, hlt]
      · simp [setEntry, h, hlt, getEntry_insertEntry_self]
        omega

/-- Claim C4: for each of the four supported key types,
`keySpecFromKeyType` succeeds and `keyTypeFromKeySpec` maps the
resulting spec back to the original key type. -/
theorem keyType_keySpec_roundTrip (t : KeyType)
    (h : t = .RSA_2048 ∨ t = .RSA_4096 ∨ t = .EC_P256 ∨ t = .EC_P384) :
    ∃ spec, keySpecFromKeyType t = .ok spec ∧
      keyTypeFromKeySpec spec = .ok t := by
  rcases h with h | h | h | h <;> subst h <;> exact ⟨_, rfl, by rfl⟩

/-- Witness for C4 at the concrete key type `EC_P256`. -/
theorem keyType_keySpec_roundTrip_witness :
    ∃ spec, keySpecFromKeyType .EC_P256 = .ok spec ∧
      keyTypeFromKeySpec spec = .ok .EC_P256 :=
  keyType_keySpec_roundTrip .EC_P256 (by tauto)

/-- Claim C2: whenever the store has an entry for the requested key id,
`SignData` sends the backend the fixed algorithm `ECDSA_SHA_256`,
independent of the entry's key type — so an RSA-typed entry is *not*
signed with an RSA-family algorithm, contradicting the claim (the
source marks this with a TODO at kms.go:190). -/
theorem SignData_constant_algorithm (es : Entries) (id : String)
    (d : List Nat) (e : keyEntry) (h : entry es id = some e) :
    SignData es id d =
      .ok ⟨e.AwsKeyID, d, MessageTypeDigest, SigningAlgorithmSpecEcdsaSha256⟩ := by
  simp [SignData, h]

/-- Witness for C2 at a concrete RSA-2048 entry: the backend receives
`ECDSA_SHA_256` even though the entry's key type is RSA-2048. -/
theorem SignData_constant_algorithm_witness :
    SignData [("k", ⟨"aws-rsa", 1, ⟨"k", .RSA_2048, [7]⟩⟩)] "k" [9] =
      .ok ⟨"aws-rsa", [9], MessageTypeDigest, SigningAlgorithmSpecEcdsaSha256⟩ :=
  SignData_constant_algorithm [("k", ⟨"aws-rsa", 1, ⟨"k", .RSA_2048, [7]⟩⟩)]
    "k" [9] ⟨"aws-rsa", 1, ⟨"k", .RSA_2048, [7]⟩⟩ rfl

/-- Claim C3: in a `GenerateKey` run whose backend calls all succeed,
the schedule-key-deletion trace is exactly `[old
entry's handle]` when an old entry existed and the put was accepted
(creation time of the new key at least the old entry's), is empty when
the put was rejected (store also unchanged) or no old entry existed,
and never targets the newly created key's handle (the handles of
distinct backend keys being distinct). -/
theorem GenerateKey_deletion (es : Entries) (id : String) (t : KeyType)
    (key : CreateKeyResult) (pub : GetPublicKeyResult) (spec : String)
    (hspec : keySpecFromKeyType t = .ok spec) :
    (∀ old, entry es id = some old →
        (old.CreationDate ≤ key.CreationDate →
          deletionCalls (GenerateKey es id t (.ok key) (.ok pub) (.ok ())).calls
            = [old.AwsKeyID]) ∧
        (key.CreationDate < old.CreationDate →
          deletionCalls (GenerateKey es id t (.ok key) (.ok pub) (.ok ())).calls
              = [] ∧
            (GenerateKey es id t (.ok key) (.ok pub) (.ok ())).entries = es) ∧
        (pub.KeyId ≠ old.AwsKeyID →
          pub.KeyId ∉
            deletionCalls (GenerateKey es id t (.ok key) (.ok pub) (.ok ())).calls)) ∧
      (entry es id = none →
        deletionCalls (GenerateKey es id t (.ok key) (.ok pub) (.ok ())).calls
          = []) := by
  constructor
  · intro old hold
    by_cases hlt : old.CreationDate > key.CreationDate
    · refine ⟨fun hle => absurd hle (by omega), fun _ => ?_, fun hne => ?_⟩
      · simp [GenerateKey, hspec, hold, setEntry, entry] at hold ⊢
        simp [hold, hlt, deletionCalls]
      · simp [GenerateKey, hspec, hold, setEntry, entry] at hold ⊢
        simp [hold, hlt, deletionCalls]
    · have hacc : (setEntry es id
          ⟨pub.KeyId, key.CreationDate, ⟨id, t, pub.PublicKey⟩⟩).2 = true := by
        simp [setEntry, entry] at hold ⊢
        simp [hold, hlt]
      refine ⟨fun _ => ?_, fun hgt => absurd hgt (by omega), fun hne => ?_⟩
      · simp [GenerateKey, hspec, hold, hacc, deletionCalls]
      · simp [GenerateKey, hspec, hold, hacc, deletionCalls]
        exact fun hcontra => hne hcontra
  · intro hnone
    simp [GenerateKey, hspec, hnone, deletionCalls]

/-- Witness for C3: a rotation over an older existing entry schedules
exactly one deletion, of the old handle, and never of the new one. -/
theorem GenerateKey_deletion_witness :
    (∀ old, entry [("id", ⟨"aws-old", 1, ⟨"id", .EC_P256, [1]⟩⟩)] "id"
          = some old →
        (old.CreationDate ≤ (2 : Int) →
          deletionCalls (GenerateKey
              [("id", ⟨"aws-old", 1, ⟨"id", .EC_P256, [1]⟩⟩)] "id" .EC_P256
              (.ok ⟨"aws-new", 2⟩) (.ok ⟨"aws-new", [2]⟩) (.ok ())).calls
            = [old.AwsKeyID]) ∧
        ((2 : Int) < old.CreationDate →
          deletionCalls (GenerateKey
              [("id", ⟨"aws-old", 1, ⟨"id", .EC_P256, [1]⟩⟩)] "id" .EC_P256
              (.ok ⟨"aws-new", 2⟩) (.ok ⟨"aws-new", [2]⟩) (.ok ())).calls
              = [] ∧
            (GenerateKey [("id", ⟨"aws-old", 1, ⟨"id", .EC_P256, [1]⟩⟩)]
                "id" .EC_P256 (.ok ⟨"aws-new", 2⟩) (.ok ⟨"aws-new", [2]⟩)
                (.ok ())).entries
              = [("id", ⟨"aws-old", 1, ⟨"id", .EC_P256, [1]⟩⟩)]) ∧
        ("aws-new" ≠ old.AwsKeyID →
          "aws-new" ∉
            deletionCalls (GenerateKey
                [("id", ⟨"aws-old", 1, ⟨"id", .EC_P256, [1]⟩⟩)] "id" .EC_P256
                (.ok ⟨"aws-new", 2⟩) (.ok ⟨"aws-new", [2]⟩) (.ok ())).calls)) ∧
      (entry [("id", ⟨"aws-old", 1, ⟨"id", .EC_P256, [1]⟩⟩)] "id" = none →
        deletionCalls (GenerateKey
            [("id", ⟨"aws-old", 1, ⟨"id", .EC_P256, [1]⟩⟩)] "id" .EC_P256
            (.ok ⟨"aws-new", 2⟩) (.ok ⟨"aws-new", [2]⟩) (.ok ())).calls
          = []) :=
  GenerateKey_deletion [("id", ⟨"aws-old", 1, ⟨"id", .EC_P256, [1]⟩⟩)]
    "id" .EC_P256 ⟨"aws-new", 2⟩ ⟨"aws-new", [2]⟩
    CustomerMasterKeySpecEccNistP256 rfl

/-- Claim C8: a `GenerateKey` request whose key type has no backend
mapping fails with the mapping's error before any backend call and
with the store untouched; RSA-1024 is recognized but rejected with
"unsupported", distinct from the default arm's "unknown and
unsupported". -/
theorem GenerateKey_unsupported (es : Entries) (id : String)
    (t : KeyType) (e : String)
    (createRes : Except String CreateKeyResult)
    (pubRes : Except String GetPublicKeyResult)
    (deleteRes : Except String Unit)
    (h : keySpecFromKeyType t = .error e) :
    GenerateKey es id t createRes pubRes deleteRes = ⟨es, [], .error e⟩ ∧
      keySpecFromKeyType .RSA_1024 = .error "unsupported" ∧
      keySpecFromKeyType .UNSPECIFIED = .error "unknown and unsupported" ∧
      ("unsupported" : String) ≠ "unknown and unsupported" := by
  refine ⟨?_, rfl, rfl, by decide⟩
  simp [GenerateKey, h]

/-- Witness for C8 at `RSA_1024` on a nonempty store. -/
theorem GenerateKey_unsupported_witness :
    GenerateKey [("id", ⟨"aws-old", 1, ⟨"id", .EC_P256, [1]⟩⟩)] "id"
        .RSA_1024 (.ok ⟨"aws-new", 2⟩) (.ok ⟨"aws-new", [2]⟩) (.ok ())
        = ⟨[("id", ⟨"aws-old", 1, ⟨"id", .EC_P256, [1]⟩⟩)], [],
            .error "unsupported"⟩ ∧
      keySpecFromKeyType .RSA_1024 = .error "unsupported" ∧
      keySpecFromKeyType .UNSPECIFIED = .error "unknown and unsupported" ∧
      ("unsupported" : String) ≠ "unknown and unsupported" :=
  GenerateKey_unsupported [("id", ⟨"aws-old", 1, ⟨"id", .EC_P256, [1]⟩⟩)]
    "id" .RSA_1024 "unsupported" (.ok ⟨"aws-new", 2⟩) (.ok ⟨"aws-new", [2]⟩)
    (.ok ()) rfl

/-- Claim C10: `GetPublicKey` with an empty key id returns the
"KeyId is required" error on every store (so the store is never
consulted), while a nonempty id with no entry returns a successful
empty response. -/
theorem GetPublicKey_empty_and_missing (es : Entries) (id : String)
    (hne : id ≠ "") (hmiss : entry es id = none) :
    GetPublicKey es "" = .error "KeyId is required" ∧
      GetPublicKey es id = .ok none := by
  constructor
  · simp [GetPublicKey]
  · simp [GetPublicKey, hne, hmiss]

/-- Witness for C10 on a nonempty store without the requested id. -/
theorem GetPublicKey_empty_and_missing_witness :
    GetPublicKey [("k", ⟨"aws-1", 1, ⟨"k", .EC_P256, [1]⟩⟩)] ""
        = .error "KeyId is required" ∧
      GetPublicKey [("k", ⟨"aws-1", 1, ⟨"k", .EC_P256, [1]⟩⟩)] "x"
        = .ok none :=
  GetPublicKey_empty_and_missing [("k", ⟨"aws-1", 1, ⟨"k", .EC_P256, [1]⟩⟩)]
    "x" (by decide) rfl

theorem isPrefixOf_append_self (l₁ l₂ : List Char) :
    l₁.isPrefixOf (l₁ ++ l₂) = true := by
  induction l₁ with
  | nil => simp [List.isPrefixOf]
  | cons c t ih => simp [List.isPrefixOf, ih]

theorem firstOcc_append_self (sep rest : List Char) (hne : sep ≠ []) :
    firstOcc sep (sep ++ rest) = some (sep, rest) := by
  match sep, hne with
  | c :: t, _ =>
      show firstOcc (c :: t) ((c :: t) ++ rest) = some (c :: t, rest)
      have hpre : (c :: t).isPrefixOf ((c :: t) ++ rest) = true :=
        isPrefixOf_append_self (c :: t) rest
      simp only [List.cons_append] at hpre ⊢
      simp [firstOcc, hpre]

theorem splitAfterAux_no_occ (sep s : List Char) (fuel : Nat)
    (h : firstOcc sep s = none) : splitAfterAux sep fuel s = [s] := by
  cases fuel <;> simp [splitAfterAux, h]

theorem splitAfterAux_label (sep id : List Char) (fuel : Nat)
    (hne : sep ≠ []) (h : firstOcc sep id = none) :
    splitAfterAux sep (fuel + 1) (sep ++ id) = [sep, id] := by
  simp [splitAfterAux, firstOcc_append_self sep id hne,
    splitAfterAux_no_occ sep id fuel h]

theorem mk_toList (s : String) : String.mk s.toList = s := by
  obtain ⟨d⟩ := s
  rfl

theorem toList_append (s t : String) :
    (s ++ t).toList = s.toList ++ t.toList := by
  obtain ⟨a⟩ := s
  obtain ⟨b⟩ := t
  rfl

/-- When the logical id contains no occurrence of the tag, splitting
the label `tag ++ id` after the tag yields exactly `[tag, id]`. -/
theorem splitAfter_label (id : String)
    (h : firstOcc keyPrefix.toList id.toList = none) :
    splitAfter (keyPrefix ++ id) keyPrefix = [keyPrefix, id] := by
  have hne : keyPrefix.toList ≠ [] := by decide
  unfold splitAfter
  rw [toList_append,
    splitAfterAux_label keyPrefix.toList id.toList
      (keyPrefix.toList ++ id.toList).length hne h]
  simp [mk_toList]

theorem hasPrefixGo_append_self (pre rest : String) :
    hasPrefixGo (pre ++ rest) pre = true := by
  unfold hasPrefixGo
  rw [toList_append]
  exact isPrefixOf_append_self _ _

/-- Claim C7 counterexample: for an enabled, tagged key whose logical
id itself contains the tag (description
`"SPIRE_SERVER_KEY:aSPIRE_SERVER_KEY:b"`, logical id
`"aSPIRE_SERVER_KEY:b"`), the entry stored uses the truncated id
`"aSPIRE_SERVER_KEY:"` — `SplitAfter(...)[1]` stops at the second tag
occurrence — not the full substring after the first tag occurrence. -/
theorem processKMSKey_tag_in_id_counterexample :
    (processKMSKey [] ⟨"aws-1",
        .ok ⟨CustomerMasterKeySpecEccNistP256, true,
          "SPIRE_SERVER_KEY:aSPIRE_SERVER_KEY:b", 1⟩, .ok [1]⟩).putCall =
      some ("aSPIRE_SERVER_KEY:",
        ⟨"aws-1", 1, ⟨"aSPIRE_SERVER_KEY:", .EC_P256, [1]⟩⟩) ∧
      "aSPIRE_SERVER_KEY:" ≠ "aSPIRE_SERVER_KEY:b" := by
  constructor
  · rfl
  · decide

/-- Claim C7 (amended): for an enabled key with a supported spec whose
description is `keyPrefix ++ id` where the logical id `id` does not
itself contain the tag, the stored logical id is exactly `id` (when
`id` contains the tag, the stored id is truncated at the next tag
occurrence, see the counterexample). -/
theorem processKMSKey_label_parsing (es : Entries) (awsId id spec : String)
    (keyType : KeyType) (cd : Int) (pubBytes : List Nat)
    (hnocc : firstOcc keyPrefix.toList id.toList = none)
    (hspec : keyTypeFromKeySpec spec = .ok keyType) :
    (processKMSKey es
        ⟨awsId, .ok ⟨spec, true, keyPrefix ++ id, cd⟩, .ok pubBytes⟩).putCall
      = some (id, ⟨awsId, cd, ⟨id, keyType, pubBytes⟩⟩) := by
  simp [processKMSKey, hspec, hasPrefixGo_append_self,
    splitAfter_label id hnocc]

/-- Witness for C7 (amended) at the concrete logical id `"my-key"`. -/
theorem processKMSKey_label_parsing_witness :
    (processKMSKey []
        ⟨"aws-1", .ok ⟨CustomerMasterKeySpecEccNistP256, true,
          keyPrefix ++ "my-key", 7⟩, .ok [3]⟩).putCall
      = some ("my-key", ⟨"aws-1", 7, ⟨"my-key", .EC_P256, [3]⟩⟩) :=
  processKMSKey_label_parsing [] "aws-1" "my-key"
    CustomerMasterKeySpecEccNistP256 .EC_P256 7 [3] (by decide) rfl

theorem processKMSKey_putCall_eq (es : Entries) (k : KMSKeyData) :
    (processKMSKey es k).putCall = specAdoptedPut k := by
  obtain ⟨kid, dres, pres⟩ := k
  cases dres with
  | error e => cases pres <;> rfl
  | ok md =>
      cases hty : keyTypeFromKeySpec md.CustomerMasterKeySpec with
      | error e =>
          cases pres <;> simp [processKMSKey, specAdoptedPut, hty]
      | ok keyType =>
          by_cases hcond :
            (md.Enabled && hasPrefixGo md.Description keyPrefix) = true <;>
            cases pres <;>
            simp [processKMSKey, specAdoptedPut, hty, hcond]

theorem specAdoptedPut_isSome (k : KMSKeyData)
    (hpub : specAdopted k = true → k.GetPublicKeyResult.isOk = true) :
    (specAdoptedPut k).isSome = specAdopted k := by
  obtain ⟨kid, dres, pres⟩ := k
  unfold specAdopted at hpub ⊢
  cases dres with
  | error e => simp [specAdoptedPut]
  | ok md =>
      cases hty : keyTypeFromKeySpec md.CustomerMasterKeySpec with
      | error e =>
          cases pres <;> simp [specAdoptedPut, hty, Except.isOk, Except.toBool]
      | ok keyType =>
          by_cases hcond :
            (md.Enabled && hasPrefixGo md.Description keyPrefix) = true
          · simp only [hty, hcond, Except.isOk, Except.toBool] at hpub
            cases pres with
            | error e => simp at hpub
            | ok pubBytes =>
                simp [specAdoptedPut, hty, hcond, Except.isOk, Except.toBool]
          · cases pres <;>
              simp [specAdoptedPut, hty, hcond, Except.isOk, Except.toBool]

/-- Claim C5: reconciliation performs exactly the Puts prescribed by
the spec's filter — one per backend key that is enabled, carries the
ownership tag and has a supported spec (`specAdoptedPut`), and none
for disabled, untagged or unsupported keys; given that the public key
fetch succeeds for every key passing the filter, the number of Puts is
exactly the number of keys passing the filter. -/
theorem reconcile_snd_eq (keys : List KMSKeyData) (es : Entries) :
    (reconcile es keys).2 = keys.filterMap specAdoptedPut := by
  induction keys generalizing es with
  | nil => rfl
  | cons k rest ih =>
      simp only [reconcile, List.filterMap_cons]
      rw [processKMSKey_putCall_eq, ih]
      cases specAdoptedPut k <;> simp

theorem filterMap_adopted_length (keys : List KMSKeyData)
    (hpub : ∀ k ∈ keys, specAdopted k = true →
      k.GetPublicKeyResult.isOk = true) :
    (keys.filterMap specAdoptedPut).length
      = (keys.filter specAdopted).length := by
  induction keys with
  | nil => rfl
  | cons k rest ih =>
      have hk := specAdoptedPut_isSome k (hpub k (by simp))
      have ih' := ih (fun k' hk' => hpub k' (by simp [hk']))
      cases hsome : specAdoptedPut k with
      | none =>
          have hf : specAdopted k = false := by rw [← hk, hsome]; rfl
          simp [List.filterMap_cons, hsome, List.filter_cons, hf, ih']
      | some p =>
          have ht : specAdopted k = true := by rw [← hk, hsome]; rfl
          simp [List.filterMap_cons, hsome, List.filter_cons, ht, ih']

theorem reconcile_filter (es : Entries) (keys : List KMSKeyData)
    (hpub : ∀ k ∈ keys, specAdopted k = true →
      k.GetPublicKeyResult.isOk = true) :
    (reconcile es keys).2 = keys.filterMap specAdoptedPut ∧
      (reconcile es keys).2.length = (keys.filter specAdopted).length := by
  refine ⟨reconcile_snd_eq keys es, ?_⟩
  rw [reconcile_snd_eq keys es]
  exact filterMap_adopted_length keys hpub

/-- Witness for C5 on three keys: one enabled and tagged, one
disabled, one untagged — exactly one Put results. -/
theorem reconcile_filter_witness :
    (∀ k ∈ [(⟨"aws-1", .ok ⟨CustomerMasterKeySpecEccNistP256, true,
            "SPIRE_SERVER_KEY:a", 1⟩, .ok [1]⟩ : KMSKeyData),
          ⟨"aws-2", .ok ⟨CustomerMasterKeySpecEccNistP256, false,
            "SPIRE_SERVER_KEY:b", 2⟩, .ok [2]⟩,
          ⟨"aws-3", .ok ⟨CustomerMasterKeySpecEccNistP256, true,
            "unrelated", 3⟩, .ok [3]⟩],
        specAdopted k = true → k.GetPublicKeyResult.isOk = true) ∧
      ((reconcile [] [(⟨"aws-1", .ok ⟨CustomerMasterKeySpecEccNistP256, true,
            "SPIRE_SERVER_KEY:a", 1⟩, .ok [1]⟩ : KMSKeyData),
          ⟨"aws-2", .ok ⟨CustomerMasterKeySpecEccNistP256, false,
            "SPIRE_SERVER_KEY:b", 2⟩, .ok [2]⟩,
          ⟨"aws-3", .ok ⟨CustomerMasterKeySpecEccNistP256, true,
            "unrelated", 3⟩, .ok [3]⟩]).2
          = [(⟨"aws-1", .ok ⟨CustomerMasterKeySpecEccNistP256, true,
              "SPIRE_SERVER_KEY:a", 1⟩, .ok [1]⟩ : KMSKeyData),
            ⟨"aws-2", .ok ⟨CustomerMasterKeySpecEccNistP256, false,
              "SPIRE_SERVER_KEY:b", 2⟩, .ok [2]⟩,
            ⟨"aws-3", .ok ⟨CustomerMasterKeySpecEccNistP256, true,
              "unrelated", 3⟩, .ok [3]⟩].filterMap specAdoptedPut ∧
        (reconcile [] [(⟨"aws-1", .ok ⟨CustomerMasterKeySpecEccNistP256, true,
            "SPIRE_SERVER_KEY:a", 1⟩, .ok [1]⟩ : KMSKeyData),
          ⟨"aws-2", .ok ⟨CustomerMasterKeySpecEccNistP256, false,
            "SPIRE_SERVER_KEY:b", 2⟩, .ok [2]⟩,
          ⟨"aws-3", .ok ⟨CustomerMasterKeySpecEccNistP256, true,
            "unrelated", 3⟩, .ok [3]⟩]).2.length
          = ([(⟨"aws-1", .ok ⟨CustomerMasterKeySpecEccNistP256, true,
              "SPIRE_SERVER_KEY:a", 1⟩, .ok [1]⟩ : KMSKeyData),
            ⟨"aws-2", .ok ⟨CustomerMasterKeySpecEccNistP256, false,
              "SPIRE_SERVER_KEY:b", 2⟩, .ok [2]⟩,
            ⟨"aws-3", .ok ⟨CustomerMasterKeySpecEccNistP256, true,
              "unrelated", 3⟩, .ok [3]⟩].filter specAdopted).length) :=
  ⟨by decide, reconcile_filter [] _ (by decide)⟩

theorem processKMSKey_error_noop (es : Entries) (k : KMSKeyData)
    (h : (processKMSKey es k).result.isOk = false) :
    (processKMSKey es k).entries = es ∧ (processKMSKey es k).putCall = none := by
  obtain ⟨kid, dres, pres⟩ := k
  cases dres with
  | error e => exact ⟨rfl, rfl⟩
  | ok md =>
      cases hty : keyTypeFromKeySpec md.CustomerMasterKeySpec with
      | error e => simp [processKMSKey, hty]
      | ok keyType =>
          by_cases hcond :
            (md.Enabled && hasPrefixGo md.Description keyPrefix) = true
          · cases pres with
            | error e => simp [processKMSKey, hty, hcond]
            | ok pubBytes =>
                simp [processKMSKey, hty, hcond, Except.isOk, Except.toBool] at h
          · simp [processKMSKey, hty, hcond, Except.isOk, Except.toBool] at h

/-- Claim C6: when the configuration decodes and the client is
constructed, `Configure` succeeds whenever the initial key listing
succeeds — whatever per-key failures the listed keys carry; a key
whose reconciliation fails (describe error, unsupported spec, or
public-key fetch error) leaves the reconciliation of the remaining
keys exactly as if it were absent; and a failure of the initial
listing makes `Configure` return that error. -/
theorem Configure_error_isolation (decoded : Option Config) (c : Config)
    (es : Entries) (keys : List KMSKeyData) (kbad : KMSKeyData)
    (err : String) (hdec : configure decoded = .ok c)
    (hbad : (processKMSKey es kbad).result.isOk = false) :
    (Configure decoded (.ok ()) (.ok keys)).result.isOk = true ∧
      reconcile es (kbad :: keys) = reconcile es keys ∧
      (Configure decoded (.ok ()) (.error err)).result = .error err := by
  obtain ⟨hes, hput⟩ := processKMSKey_error_noop es kbad hbad
  refine ⟨?_, ?_, ?_⟩
  · simp [Configure, hdec, Except.isOk, Except.toBool]
  · simp [reconcile, hes, hput]
  · simp [Configure, hdec]

/-- Witness for C6: a key whose describe call fails, prepended to a
list holding a key whose public-key fetch fails. -/
theorem Configure_error_isolation_witness :
    (Configure (some ⟨"ak", "sk", "us-east-1"⟩) (.ok ())
        (.ok [⟨"aws-2", .ok ⟨CustomerMasterKeySpecEccNistP256, true,
          "SPIRE_SERVER_KEY:a", 1⟩, .error "fetch failed"⟩])).result.isOk
        = true ∧
      reconcile [] [⟨"aws-1", .error "describe failed", .ok []⟩,
          ⟨"aws-2", .ok ⟨CustomerMasterKeySpecEccNistP256, true,
            "SPIRE_SERVER_KEY:a", 1⟩, .error "fetch failed"⟩]
        = reconcile [] [⟨"aws-2", .ok ⟨CustomerMasterKeySpecEccNistP256,
            true, "SPIRE_SERVER_KEY:a", 1⟩, .error "fetch failed"⟩] ∧
      (Configure (some ⟨"ak", "sk", "us-east-1"⟩) (.ok ())
          (.error "listing failed")).result = .error "listing failed" :=
  Configure_error_isolation (some ⟨"ak", "sk", "us-east-1"⟩)
    ⟨"ak", "sk", "us-east-1"⟩ []
    [⟨"aws-2", .ok ⟨CustomerMasterKeySpecEccNistP256, true,
      "SPIRE_SERVER_KEY:a", 1⟩, .error "fetch failed"⟩]
    ⟨"aws-1", .error "describe failed", .ok []⟩
    "listing failed" rfl rfl

/-- Claim C9: the source's `configure` performs no required-field
validation (the validation block is commented out), so a configuration
record with every field empty decodes successfully and `Configure`
proceeds to construct the KMS client and returns success — there is no
ConfigInvalid failure before client construction. -/
theorem configure_no_validation :
    configure (some ⟨"", "", ""⟩) = .ok ⟨"", "", ""⟩ ∧
      (Configure (some ⟨"", "", ""⟩) (.ok ()) (.ok [])).clientConstructed
        = true ∧
      (Configure (some ⟨"", "", ""⟩) (.ok ()) (.ok [])).result = .ok [] :=
  ⟨rfl, rfl, rfl⟩

end KmsPlugin
